import Mathlib

/-!
Verification of the OCR timeout-protection module
(`tesseract_timeout_fix_working.py`).

Shallow embedding: a wrapped blocking callable is modelled by its
observable behavior (`OpBehavior`): it either returns a value after some
wall-clock duration, raises an exception after some duration, or never
finishes. Durations and timeouts are rationals (seconds). A Python
exception is modelled by its class name (kind) and message. The
`TesseractTimeoutManager` instance state (`timeout`, `result`,
`exception`, `process_pids`) is explicit; `run_with_timeout` is a
function from the manager state and the wrapped call to the new state
and an `Except` outcome (`Except.error` models a raised exception,
`Except.ok` models a normal return of `self.result`).

Images are modelled by their width, height and mode; the OCR engine
(`pytesseract.image_to_string`) is a parameter mapping the processed
image to an `OpBehavior String`. Process scanning (`psutil`) is
modelled by a parameter `scanned` giving the pids the monitor finds;
its content is irrelevant to all functional results.
-/

namespace TesseractFix

/-- A Python exception value: its class (kind) and its message. -/
structure Exc where
  kind : String
  msg : String
deriving DecidableEq, Repr

/-- Observable behavior of a wrapped blocking callable: it returns a
value after `duration` seconds, raises an exception after `duration`
seconds, or never finishes. -/
inductive OpBehavior (α : Type) where
  | returns (v : α) (duration : ℚ)
  | raises (e : Exc) (duration : ℚ)
  | diverges
deriving DecidableEq, Repr

/-- The `TimeoutError` raised at line 82 of the source:
`TimeoutError(f"OCR operation timed out after {self.timeout} seconds")`. -/
def timeoutError (t : ℚ) : Exc :=
  { kind := "TimeoutError"
    msg := "OCR operation timed out after " ++ toString t ++ " seconds" }

/-- State of a `TesseractTimeoutManager` instance (source lines 20-24):
configuration `timeout` plus per-invocation transient state `result`,
`exception` and `process_pids`. -/
structure TesseractTimeoutManager (α : Type) where
  timeout : ℚ
  result : Option α := none
  exception : Option Exc := none
  process_pids : List Nat := []
deriving DecidableEq, Repr

/-- Whether the wrapped call finishes (returns or raises) within `t`
seconds; this is what `thread.join(timeout=t)` observes at line 77:
the thread is no longer alive afterwards iff the call finished within
the bound. -/
def finishesWithin {α : Type} (op : OpBehavior α) (t : ℚ) : Bool :=
  match op with
  | .returns _ d => decide (d ≤ t)
  | .raises _ d => decide (d ≤ t)
  | .diverges => false

/-- What `_target_function` (source lines 26-36) writes into
`self.result` and `self.exception` when the wrapped call completes:
on a normal return it stores the value in `result`, on an exception it
stores the exception in `exception`. -/
def targetWrites {α : Type} (op : OpBehavior α) : Option α × Option Exc :=
  match op with
  | .returns v _ => (some v, none)
  | .raises e _ => (none, some e)
  | .diverges => (none, none)

/-- `TesseractTimeoutManager.run_with_timeout` (source lines 62-88).
`f` is the callable and `x` its forwarded arguments (the thread is
started with `args=(func,)+args`, and `_target_function` calls
`func(*args)`, so the behavior exercised is `f x`). `scanned` is the
pid list `_monitor_processes` appends (best-effort, OS-dependent).
Lines 64-66 reset the transient state; line 77 waits up to
`self.timeout`; lines 79-82 raise `TimeoutError` if the thread is
still alive; line 86 re-raises the stored exception; line 88 returns
`self.result`. -/
def run_with_timeout {α σ : Type} (m : TesseractTimeoutManager α)
    (f : σ → OpBehavior α) (x : σ) (scanned : List Nat) :
    TesseractTimeoutManager α × Except Exc (Option α) :=
  let m0 : TesseractTimeoutManager α :=
    { m with result := none, exception := none, process_pids := [] }
  let op := f x
  if finishesWithin op m0.timeout then
    let w := targetWrites op
    let m1 : TesseractTimeoutManager α :=
      { m0 with result := w.1, exception := w.2, process_pids := scanned }
    match m1.exception with
    | some e => (m1, Except.error e)
    | none => (m1, Except.ok m1.result)
  else
    ({ m0 with process_pids := scanned }, Except.error (timeoutError m0.timeout))

/-- Wall-clock time model of the single suspension point
(`thread.join(timeout=self.timeout)`, line 77): the caller is blocked
for the call's duration when it finishes within the bound, and for
exactly the timeout when it does not (thread start and cleanup
overhead are the scheduling epsilon of the spec, not modelled here). -/
def run_elapsed {α : Type} (t : ℚ) (op : OpBehavior α) : ℚ :=
  match op with
  | .returns _ d => min d t
  | .raises _ d => min d t
  | .diverges => t

/-- A PIL image, reduced to the attributes the module reads: `width`,
`height` and `mode`. -/
structure PILImage where
  width : Nat
  height : Nat
  mode : String
deriving DecidableEq, Repr

/-- Input to the extractors: an already-decoded image or a file path
(source type `Union[Image.Image, str]`). -/
inductive ImageInput where
  | image (i : PILImage)
  | path (p : String)
deriving DecidableEq, Repr

/-- The resize ratio of source lines 113 and 166:
`ratio = min(cap / image.width, cap / image.height)`. -/
def resizeRatio (cap w h : Nat) : ℚ :=
  min ((cap : ℚ) / w) ((cap : ℚ) / h)

/-- One resized dimension, source lines 114 and 167:
`int(dim * ratio)` (Python `int` truncates; the product is
nonnegative, so this is the floor). -/
def scaledDim (r : ℚ) (d : Nat) : Nat :=
  (⌊(d : ℚ) * r⌋).toNat

/-- The downscale step shared by both profiles (source lines 110-115
and 164-168): when either dimension exceeds `cap`, scale both by
`min(cap/width, cap/height)`, truncating to integers; otherwise the
image is unchanged. (The two profiles differ only in `cap` and in the
resampling filter, which does not affect dimensions.) -/
def resizeIfNeeded (cap : Nat) (img : PILImage) : PILImage :=
  if cap < img.width ∨ cap < img.height then
    let r := resizeRatio cap img.width img.height
    { img with width := scaledDim r img.width
               height := scaledDim r img.height }
  else img

/-- `WorkingQuickOCR._preprocess_image` (source lines 101-117):
open a path if needed, convert to RGB, and downscale preserving
aspect ratio when either dimension exceeds 2000. `openImage` models
`Image.open` (which may raise on a bad path). -/
def _preprocess_image (openImage : String → Except Exc PILImage)
    (input : ImageInput) : Except Exc PILImage := do
  let img ← match input with
    | .image i => Except.ok i
    | .path p => openImage p
  let img := if img.mode ≠ "RGB" then { img with mode := "RGB" } else img
  pure (resizeIfNeeded 2000 img)

/-- `WorkingFastScreenOCR._preprocess_for_speed` (source lines
155-170): convert to grayscale, downscale when either dimension
exceeds 1500. -/
def _preprocess_for_speed (openImage : String → Except Exc PILImage)
    (input : ImageInput) : Except Exc PILImage := do
  let img ← match input with
    | .image i => Except.ok i
    | .path p => openImage p
  let img := if img.mode ≠ "L" then { img with mode := "L" } else img
  pure (resizeIfNeeded 1500 img)

/-- Python's `str.strip()` with no argument: remove leading and
trailing whitespace. Defined over the character list so that it
evaluates by kernel reduction. -/
def pyStrip (s : String) : String :=
  String.mk
    (((s.data.dropWhile Char.isWhitespace).reverse.dropWhile
        Char.isWhitespace).reverse)

/-- `WorkingQuickOCR._ocr_operation` (source lines 119-121): run the
engine and strip the returned string. `engine` models
`pytesseract.image_to_string` with the profile's config already
applied; the strip happens inside the worker, on the engine's raw
output. -/
def _ocr_operation (engine : PILImage → OpBehavior String)
    (img : PILImage) : OpBehavior String :=
  match engine img with
  | .returns s d => .returns (pyStrip s) d
  | .raises e d => .raises e d
  | .diverges => .diverges

/-- `WorkingFastScreenOCR._fast_ocr_operation` (source lines 172-174):
same shape as `_ocr_operation`, with the fast profile's engine
configuration absorbed into `engine`. -/
def _fast_ocr_operation (engine : PILImage → OpBehavior String)
    (img : PILImage) : OpBehavior String :=
  match engine img with
  | .returns s d => .returns (pyStrip s) d
  | .raises e d => .raises e d
  | .diverges => .diverges

/-- `WorkingQuickOCR.extract_text` (source lines 123-142): preprocess,
run the OCR operation under the timeout manager, return the text on
success, `None` (modelled `none`) when the result is empty/falsy
(line 135 `return result if result else None`) and on any caught
`TimeoutError` or other exception (lines 137-142). -/
def extract_text (openImage : String → Except Exc PILImage)
    (engine : PILImage → OpBehavior String)
    (m : TesseractTimeoutManager String) (scanned : List Nat)
    (input : ImageInput) : Option String :=
  match _preprocess_image openImage input with
  | Except.error _ => none
  | Except.ok processed =>
    match (run_with_timeout m (_ocr_operation engine) processed scanned).2 with
    | Except.error _ => none
    | Except.ok r =>
      match r with
      | none => none
      | some s => if s = "" then none else some s

/-- `WorkingFastScreenOCR.extract_screen_text` (source lines 176-195):
same structure as `extract_text` with the fast preprocessing and OCR
operation. -/
def extract_screen_text (openImage : String → Except Exc PILImage)
    (engine : PILImage → OpBehavior String)
    (m : TesseractTimeoutManager String) (scanned : List Nat)
    (input : ImageInput) : Option String :=
  match _preprocess_for_speed openImage input with
  | Except.error _ => none
  | Except.ok processed =>
    match (run_with_timeout m (_fast_ocr_operation engine) processed scanned).2 with
    | Except.error _ => none
    | Except.ok r =>
      match r with
      | none => none
      | some s => if s = "" then none else some s

/-- One entry of `WorkingOCRBatch.process_images`' result list
(source lines 219-232): `index`, `text`, `success`, and the `error`
key that is only present in the `except` branch (modelled as an
`Option`, `none` when the key is absent). -/
structure BatchResult where
  index : Nat
  text : Option String
  success : Bool
  error : Option String
deriving DecidableEq, Repr

/-- `WorkingOCRBatch.process_images` (source lines 205-234): for each
image in order, call the fast or quick extractor and append
`{'index': i, 'text': text, 'success': text is not None}`. The
`except` branch (lines 225-232) is unreachable because both
extractors catch every exception internally and return `None`
(see `extract_text`/`extract_screen_text`), so the embedding has no
counterpart for it and every produced entry carries no `error` key.
`tq`/`tf` are the quick and fast timeouts
(`timeout_per_image` and `timeout_per_image * 0.8` at lines 202-203),
`engineQ`/`engineF` the two engine configurations. -/
def process_images (openImage : String → Except Exc PILImage)
    (engineQ engineF : PILImage → OpBehavior String)
    (tq tf : ℚ) (scanned : List Nat)
    (images : List ImageInput) (fast_mode : Bool) : List BatchResult :=
  images.enum.map (fun p =>
    let text : Option String :=
      if fast_mode then
        extract_screen_text openImage engineF { timeout := tf } scanned p.2
      else
        extract_text openImage engineQ { timeout := tq } scanned p.2
    { index := p.1, text := text, success := text.isSome, error := none })

/-! ### Shared lemmas about `run_with_timeout` -/

/-- When the wrapped call does not finish within the bound, the guard
raises the timeout error. -/
theorem run_snd_of_not_finish {α σ : Type} (m : TesseractTimeoutManager α)
    (f : σ → OpBehavior α) (x : σ) (scanned : List Nat)
    (h : finishesWithin (f x) m.timeout = false) :
    (run_with_timeout m f x scanned).2 =
      Except.error (timeoutError m.timeout) := by
  simp [run_with_timeout, h]

/-- When the wrapped call returns `v` within the bound, the guard
returns `self.result = v`. -/
theorem run_snd_of_returns {α σ : Type} (m : TesseractTimeoutManager α)
    (f : σ → OpBehavior α) (x : σ) (scanned : List Nat) (v : α) (d : ℚ)
    (hfx : f x = OpBehavior.returns v d) (hd : d ≤ m.timeout) :
    (run_with_timeout m f x scanned).2 = Except.ok (some v) := by
  simp [run_with_timeout, hfx, finishesWithin, hd, targetWrites]

/-- When the wrapped call raises `e` within the bound, the guard
re-raises exactly `e`. -/
theorem run_snd_of_raises {α σ : Type} (m : TesseractTimeoutManager α)
    (f : σ → OpBehavior α) (x : σ) (scanned : List Nat) (e : Exc) (d : ℚ)
    (hfx : f x = OpBehavior.raises e d) (hd : d ≤ m.timeout) :
    (run_with_timeout m f x scanned).2 = Except.error e := by
  simp [run_with_timeout, hfx, finishesWithin, hd, targetWrites]

/-! ### Concrete instances used by witnesses and counterexamples -/

/-- An `Image.open` model that always fails (bad path). -/
def openFail : String → Except Exc PILImage :=
  fun p => Except.error { kind := "FileNotFoundError", msg := p }

/-- An `Image.open` model that never fails. -/
def openOk : String → Except Exc PILImage :=
  fun _ => Except.ok { width := 100, height := 50, mode := "RGB" }

/-- An engine that never returns (the hang `run_with_timeout` guards
against). -/
def engDiverge : PILImage → OpBehavior String :=
  fun _ => OpBehavior.diverges

/-- An engine that raises after one second. -/
def engRaise : PILImage → OpBehavior String :=
  fun _ => OpBehavior.raises { kind := "TesseractError", msg := "bad image" } 1

/-- An engine that returns raw text `s` after one second. -/
def engText (s : String) : PILImage → OpBehavior String :=
  fun _ => OpBehavior.returns s 1

/-- A small RGB test image (within both resize caps). -/
def imgSmall : PILImage := { width := 100, height := 50, mode := "RGB" }

/-- An engine that hangs on 100-pixel-wide images and returns `"ok"`
after one second otherwise (lets one batch item fail while another
succeeds). -/
def engMixed : PILImage → OpBehavior String :=
  fun img =>
    if img.width = 100 then OpBehavior.diverges
    else OpBehavior.returns "ok" 1

/-! ### Claim theorems -/

/-- C1: for every callable operation and every manager with timeout
`T > 0`, if the operation does not finish within `T` then
`run_with_timeout` raises a `TimeoutError`-kind failure to its caller
(an `Except.error` of kind `"TimeoutError"`) rather than returning a
result. -/
theorem run_with_timeout_timeout_error {α σ : Type}
    (m : TesseractTimeoutManager α) (f : σ → OpBehavior α) (x : σ)
    (scanned : List Nat) (hT : 0 < m.timeout)
    (hop : finishesWithin (f x) m.timeout = false) :
    (run_with_timeout m f x scanned).2 =
      Except.error (timeoutError m.timeout) ∧
    (timeoutError m.timeout).kind = "TimeoutError" :=
  ⟨run_snd_of_not_finish m f x scanned hop, rfl⟩

/-- Witness for C1 at a concrete input: timeout 5, diverging
operation. -/
theorem run_with_timeout_timeout_error_witness :
    (0 : ℚ) < 5 ∧
    finishesWithin (OpBehavior.diverges : OpBehavior String) 5 = false ∧
    (((run_with_timeout ({ timeout := 5 } : TesseractTimeoutManager String)
        (fun _ : Unit => OpBehavior.diverges) () []).2 =
      Except.error (timeoutError 5)) ∧
      (timeoutError (5 : ℚ)).kind = "TimeoutError") :=
  ⟨by norm_num, rfl,
    run_with_timeout_timeout_error { timeout := 5 }
      (fun _ : Unit => OpBehavior.diverges) () [] (by norm_num) rfl⟩

/-- C2: for every callable operation that returns a value `V` within
the bound, `run_with_timeout` returns exactly `V` (stored in
`self.result`), with the argument `x` forwarded verbatim to the
operation `f`. -/
theorem run_with_timeout_passes_value {α σ : Type}
    (m : TesseractTimeoutManager α) (f : σ → OpBehavior α) (x : σ)
    (scanned : List Nat) (v : α) (d : ℚ)
    (hfx : f x = OpBehavior.returns v d) (hd : d ≤ m.timeout) :
    (run_with_timeout m f x scanned).2 = Except.ok (some v) :=
  run_snd_of_returns m f x scanned v d hfx hd

/-- Witness for C2 at a concrete input: the operation `n + 1` applied
to the forwarded argument `41` returns `42` within a 10-second
bound. -/
theorem run_with_timeout_passes_value_witness :
    (fun n : Nat => OpBehavior.returns (n + 1) 2) 41 =
      OpBehavior.returns 42 2 ∧
    (2 : ℚ) ≤ 10 ∧
    (run_with_timeout ({ timeout := 10 } : TesseractTimeoutManager Nat)
      (fun n : Nat => OpBehavior.returns (n + 1) 2) 41 []).2 =
      Except.ok (some 42) :=
  ⟨rfl, by norm_num,
    run_with_timeout_passes_value { timeout := 10 }
      (fun n : Nat => OpBehavior.returns (n + 1) 2) 41 [] 42 2 rfl (by norm_num)⟩

/-- C3: for every callable operation that raises an exception `e`
within the bound, `run_with_timeout` re-raises `e` unchanged — the
very same exception value, hence the same kind and the same
message. -/
theorem run_with_timeout_passes_exception {α σ : Type}
    (m : TesseractTimeoutManager α) (f : σ → OpBehavior α) (x : σ)
    (scanned : List Nat) (e : Exc) (d : ℚ)
    (hfx : f x = OpBehavior.raises e d) (hd : d ≤ m.timeout) :
    (run_with_timeout m f x scanned).2 = Except.error e :=
  run_snd_of_raises m f x scanned e d hfx hd

/-- Witness for C3 at a concrete input: a `ValueError` raised after 1
second under a 10-second bound is re-raised unchanged. -/
theorem run_with_timeout_passes_exception_witness :
    (fun _ : Unit =>
        OpBehavior.raises (α := Nat) { kind := "ValueError", msg := "boom" } 1) () =
      OpBehavior.raises { kind := "ValueError", msg := "boom" } 1 ∧
    (1 : ℚ) ≤ 10 ∧
    (run_with_timeout ({ timeout := 10 } : TesseractTimeoutManager Nat)
      (fun _ : Unit =>
        OpBehavior.raises { kind := "ValueError", msg := "boom" } 1) () []).2 =
      Except.error { kind := "ValueError", msg := "boom" } :=
  ⟨rfl, by norm_num,
    run_with_timeout_passes_exception { timeout := 10 } _ () []
      { kind := "ValueError", msg := "boom" } 1 rfl (by norm_num)⟩

/-- C8: at the start of every `run_with_timeout` invocation the
transient state (`result`, `exception`, `process_pids`) is reset, so
two managers that agree on the configured timeout — whatever stale
transient state each carries — produce the same outcome and the same
final state; in particular every call behaves as a call on a manager
whose transient state is cleared (`result = none`, `exception = none`,
`process_pids = []`). -/
theorem run_with_timeout_state_reset {α σ : Type}
    (m m' : TesseractTimeoutManager α) (f : σ → OpBehavior α) (x : σ)
    (scanned : List Nat) (ht : m.timeout = m'.timeout) :
    run_with_timeout m f x scanned = run_with_timeout m' f x scanned ∧
    run_with_timeout m f x scanned =
      run_with_timeout
        { timeout := m.timeout, result := none, exception := none,
          process_pids := [] } f x scanned := by
  obtain ⟨t, r, e, p⟩ := m
  obtain ⟨t', r', e', p'⟩ := m'
  cases ht
  exact ⟨rfl, rfl⟩

/-- Witness for C8 at a concrete input: a manager carrying stale
transient state from a previous call behaves like a fresh one. -/
theorem run_with_timeout_state_reset_witness :
    ({ timeout := 5, result := some "stale",
       exception := some { kind := "ValueError", msg := "old" },
       process_pids := [99] } : TesseractTimeoutManager String).timeout =
      ({ timeout := 5 } : TesseractTimeoutManager String).timeout ∧
    (run_with_timeout
        ({ timeout := 5, result := some "stale",
           exception := some { kind := "ValueError", msg := "old" },
           process_pids := [99] } : TesseractTimeoutManager String)
        (fun _ : Unit => OpBehavior.returns "fresh" 1) () [] =
      run_with_timeout ({ timeout := 5 } : TesseractTimeoutManager String)
        (fun _ : Unit => OpBehavior.returns "fresh" 1) () [] ∧
    run_with_timeout
        ({ timeout := 5, result := some "stale",
           exception := some { kind := "ValueError", msg := "old" },
           process_pids := [99] } : TesseractTimeoutManager String)
        (fun _ : Unit => OpBehavior.returns "fresh" 1) () [] =
      run_with_timeout
        { timeout := 5, result := none, exception := none,
          process_pids := [] }
        (fun _ : Unit => OpBehavior.returns "fresh" 1) () []) :=
  ⟨rfl,
    run_with_timeout_state_reset
      { timeout := 5, result := some "stale",
        exception := some { kind := "ValueError", msg := "old" },
        process_pids := [99] }
      { timeout := 5 } (fun _ : Unit => OpBehavior.returns "fresh" 1) () [] rfl⟩

/-- C9: for an operation that never returns, the caller's wait is
bounded: in the wall-clock model of the single suspension point the
call takes exactly the timeout, hence at most `T + ε` for every
scheduling epsilon `ε ≥ 0`, and it ends by raising the
`TimeoutError`-kind failure. -/
theorem run_with_timeout_bounded_latency {α σ : Type}
    (m : TesseractTimeoutManager α) (f : σ → OpBehavior α) (x : σ)
    (scanned : List Nat) (ε : ℚ)
    (hop : f x = OpBehavior.diverges) (hε : 0 ≤ ε) :
    run_elapsed m.timeout (f x) ≤ m.timeout + ε ∧
    (run_with_timeout m f x scanned).2 =
      Except.error (timeoutError m.timeout) := by
  refine ⟨?_, run_snd_of_not_finish m f x scanned (by rw [hop]; rfl)⟩
  rw [hop]
  simp only [run_elapsed]
  linarith

/-- Witness for C9 at a concrete input: a never-returning operation
under timeout 1, with ε = 1/2. -/
theorem run_with_timeout_bounded_latency_witness :
    (fun _ : Unit => (OpBehavior.diverges : OpBehavior String)) () =
      OpBehavior.diverges ∧
    (0 : ℚ) ≤ 1/2 ∧
    (run_elapsed (1 : ℚ) ((fun _ : Unit =>
        (OpBehavior.diverges : OpBehavior String)) ()) ≤ 1 + 1/2 ∧
      (run_with_timeout ({ timeout := 1 } : TesseractTimeoutManager String)
        (fun _ : Unit => OpBehavior.diverges) () []).2 =
        Except.error (timeoutError 1)) :=
  ⟨rfl, by norm_num,
    run_with_timeout_bounded_latency { timeout := 1 }
      (fun _ : Unit => OpBehavior.diverges) () [] (1/2) rfl (by norm_num)⟩


/-! ### Shared lemmas about preprocessing and extraction -/

/-- A scaled dimension is bounded by any cap that bounds the exact
product. -/
theorem scaledDim_le {r : ℚ} {c d : Nat} (h : (d : ℚ) * r ≤ (c : ℚ)) :
    scaledDim r d ≤ c := by
  have hfl : ⌊(d : ℚ) * r⌋ ≤ (c : ℤ) := by
    have := Int.floor_le_floor h
    simpa using this
  exact Int.toNat_le.mpr hfl

/-- A scaled dimension is within one pixel below the exact product. -/
theorem scaledDim_pixel {r : ℚ} (hr : 0 ≤ r) (d : Nat) :
    ((scaledDim r d : Nat) : ℚ) ≤ (d : ℚ) * r ∧
    (d : ℚ) * r < ((scaledDim r d : Nat) : ℚ) + 1 := by
  have h0 : (0 : ℚ) ≤ (d : ℚ) * r := mul_nonneg (Nat.cast_nonneg d) hr
  have hfl : (0 : ℤ) ≤ ⌊(d : ℚ) * r⌋ := Int.floor_nonneg.mpr h0
  have hcast : ((scaledDim r d : Nat) : ℚ) = ((⌊(d : ℚ) * r⌋ : ℤ) : ℚ) := by
    rw [scaledDim, ← Int.cast_natCast, Int.toNat_of_nonneg hfl]
  constructor
  · rw [hcast]; exact Int.floor_le _
  · rw [hcast]; exact Int.lt_floor_add_one _

/-- The resize ratio is positive for a positive cap and positive
dimensions. -/
theorem resizeRatio_pos {cap w h : Nat} (hcap : 0 < cap) (hw : 0 < w)
    (hh : 0 < h) : 0 < resizeRatio cap w h := by
  have hc : (0 : ℚ) < (cap : ℚ) := by exact_mod_cast hcap
  exact lt_min (div_pos hc (by exact_mod_cast hw))
    (div_pos hc (by exact_mod_cast hh))

/-- Width times the resize ratio never exceeds the cap. -/
theorem mul_resizeRatio_le_left {cap w h : Nat} (hw : 0 < w) :
    (w : ℚ) * resizeRatio cap w h ≤ (cap : ℚ) := by
  have hw0 : ((w : Nat) : ℚ) ≠ 0 := by
    exact_mod_cast hw.ne'
  calc (w : ℚ) * resizeRatio cap w h
      ≤ (w : ℚ) * ((cap : ℚ) / w) :=
        mul_le_mul_of_nonneg_left (min_le_left _ _) (Nat.cast_nonneg w)
    _ = (cap : ℚ) := by field_simp

/-- Height times the resize ratio never exceeds the cap. -/
theorem mul_resizeRatio_le_right {cap w h : Nat} (hh : 0 < h) :
    (h : ℚ) * resizeRatio cap w h ≤ (cap : ℚ) := by
  have hh0 : ((h : Nat) : ℚ) ≠ 0 := by
    exact_mod_cast hh.ne'
  calc (h : ℚ) * resizeRatio cap w h
      ≤ (h : ℚ) * ((cap : ℚ) / h) :=
        mul_le_mul_of_nonneg_left (min_le_right _ _) (Nat.cast_nonneg h)
    _ = (cap : ℚ) := by field_simp

/-- Full characterization of the shared downscale step: above the cap
both output dimensions are bounded by the cap and each is within one
pixel below the common exact scaling; at or below the cap the
dimensions are unchanged. -/
theorem resizeIfNeeded_spec (cap : Nat) (img : PILImage)
    (hw : 0 < img.width) (hh : 0 < img.height) (hcap : 0 < cap) :
    ((cap < img.width ∨ cap < img.height) →
      (resizeIfNeeded cap img).width ≤ cap ∧
      (resizeIfNeeded cap img).height ≤ cap ∧
      0 < resizeRatio cap img.width img.height ∧
      ((resizeIfNeeded cap img).width : ℚ) ≤
        (img.width : ℚ) * resizeRatio cap img.width img.height ∧
      (img.width : ℚ) * resizeRatio cap img.width img.height <
        ((resizeIfNeeded cap img).width : ℚ) + 1 ∧
      ((resizeIfNeeded cap img).height : ℚ) ≤
        (img.height : ℚ) * resizeRatio cap img.width img.height ∧
      (img.height : ℚ) * resizeRatio cap img.width img.height <
        ((resizeIfNeeded cap img).height : ℚ) + 1) ∧
    (¬(cap < img.width ∨ cap < img.height) →
      (resizeIfNeeded cap img).width = img.width ∧
      (resizeIfNeeded cap img).height = img.height) := by
  constructor
  · intro hbig
    have hrpos := resizeRatio_pos hcap hw hh
    have hwpix := scaledDim_pixel hrpos.le img.width
    have hhpix := scaledDim_pixel hrpos.le img.height
    have hweq : (resizeIfNeeded cap img).width =
        scaledDim (resizeRatio cap img.width img.height) img.width := by
      simp [resizeIfNeeded, if_pos hbig]
    have hheq : (resizeIfNeeded cap img).height =
        scaledDim (resizeRatio cap img.width img.height) img.height := by
      simp [resizeIfNeeded, if_pos hbig]
    rw [hweq, hheq]
    exact ⟨scaledDim_le (mul_resizeRatio_le_left hw),
      scaledDim_le (mul_resizeRatio_le_right hh), hrpos,
      hwpix.1, hwpix.2, hhpix.1, hhpix.2⟩
  · intro hsmall
    simp [resizeIfNeeded, if_neg hsmall]

/-- Mode conversion leaves the dimensions unchanged. -/
theorem modeConvert_dims (img : PILImage) (m : String) :
    (if img.mode ≠ m then { img with mode := m } else img).width =
      img.width ∧
    (if img.mode ≠ m then { img with mode := m } else img).height =
      img.height := by
  split <;> exact ⟨rfl, rfl⟩

/-- On an already-decoded image, the accurate-profile preprocessing
returns the RGB-converted, possibly downscaled image. -/
theorem preprocess_image_eq (openImage : String → Except Exc PILImage)
    (img : PILImage) :
    _preprocess_image openImage (ImageInput.image img) =
      Except.ok (resizeIfNeeded 2000
        (if img.mode ≠ "RGB" then { img with mode := "RGB" } else img)) :=
  rfl

/-- On an already-decoded image, the fast-profile preprocessing
returns the grayscale-converted, possibly downscaled image. -/
theorem preprocess_for_speed_eq (openImage : String → Except Exc PILImage)
    (img : PILImage) :
    _preprocess_for_speed openImage (ImageInput.image img) =
      Except.ok (resizeIfNeeded 1500
        (if img.mode ≠ "L" then { img with mode := "L" } else img)) :=
  rfl

/-- When the guarded OCR call errors (timeout or engine exception),
`extract_text` returns `none`. -/
theorem extract_text_none_of_error
    (openImage : String → Except Exc PILImage)
    (engine : PILImage → OpBehavior String)
    (m : TesseractTimeoutManager String) (scanned : List Nat)
    (input : ImageInput) (pimg : PILImage) (e : Exc)
    (hp : _preprocess_image openImage input = Except.ok pimg)
    (he : (run_with_timeout m (_ocr_operation engine) pimg scanned).2 =
      Except.error e) :
    extract_text openImage engine m scanned input = none := by
  unfold extract_text
  rw [hp]
  dsimp only
  rw [he]

/-- When the guarded OCR call errors (timeout or engine exception),
`extract_screen_text` returns `none`. -/
theorem extract_screen_text_none_of_error
    (openImage : String → Except Exc PILImage)
    (engine : PILImage → OpBehavior String)
    (m : TesseractTimeoutManager String) (scanned : List Nat)
    (input : ImageInput) (pimg : PILImage) (e : Exc)
    (hp : _preprocess_for_speed openImage input = Except.ok pimg)
    (he : (run_with_timeout m (_fast_ocr_operation engine) pimg scanned).2 =
      Except.error e) :
    extract_screen_text openImage engine m scanned input = none := by
  unfold extract_screen_text
  rw [hp]
  dsimp only
  rw [he]

/-- When the engine succeeds within the bound with raw output `s`,
`extract_text` returns the trimmed string if it is nonempty, and
`none` if the trimmed string is empty. -/
theorem extract_text_of_engine_returns
    (openImage : String → Except Exc PILImage)
    (engine : PILImage → OpBehavior String)
    (m : TesseractTimeoutManager String) (scanned : List Nat)
    (input : ImageInput) (pimg : PILImage) (s : String) (d : ℚ)
    (hp : _preprocess_image openImage input = Except.ok pimg)
    (he : engine pimg = OpBehavior.returns s d) (hd : d ≤ m.timeout) :
    extract_text openImage engine m scanned input =
      if pyStrip s = "" then none else some (pyStrip s) := by
  unfold extract_text
  rw [hp]
  dsimp only
  have hop : _ocr_operation engine pimg = OpBehavior.returns (pyStrip s) d := by
    simp [_ocr_operation, he]
  rw [run_snd_of_returns m _ pimg scanned (pyStrip s) d hop hd]

/-- The downscale contract for one profile: every preprocessed output
has both dimensions within `cap` when the input exceeds it, each
within one pixel below exact scaling by the common positive ratio
`min(cap/width, cap/height)` (so the aspect ratio is preserved up to
one pixel of rounding), and unchanged dimensions otherwise. -/
def DownscaleContract (cap : Nat) (img : PILImage)
    (pre : Except Exc PILImage) : Prop :=
  ∀ out, pre = Except.ok out →
    ((cap < img.width ∨ cap < img.height) →
      out.width ≤ cap ∧ out.height ≤ cap ∧
      0 < resizeRatio cap img.width img.height ∧
      (out.width : ℚ) ≤
        (img.width : ℚ) * resizeRatio cap img.width img.height ∧
      (img.width : ℚ) * resizeRatio cap img.width img.height <
        (out.width : ℚ) + 1 ∧
      (out.height : ℚ) ≤
        (img.height : ℚ) * resizeRatio cap img.width img.height ∧
      (img.height : ℚ) * resizeRatio cap img.width img.height <
        (out.height : ℚ) + 1) ∧
    (¬(cap < img.width ∨ cap < img.height) →
      out.width = img.width ∧ out.height = img.height)

/-- C4: for every input image or path whose guarded OCR call fails —
by timeout (the call does not finish within the bound) or by an engine
error (the call raises within the bound) — both profile-level
extraction operations return `none`. They are total functions into
`Option String` in this embedding, exactly as the source catches
`TimeoutError` and every other `Exception` (lines 137-142, 190-195),
so no exception propagates to their caller. -/
theorem extract_absent_on_failure
    (openImage : String → Except Exc PILImage)
    (engineQ engineF : PILImage → OpBehavior String)
    (mq mf : TesseractTimeoutManager String) (scanned : List Nat)
    (input : ImageInput) (pq pf : PILImage)
    (hpq : _preprocess_image openImage input = Except.ok pq)
    (hpf : _preprocess_for_speed openImage input = Except.ok pf)
    (hq : finishesWithin (_ocr_operation engineQ pq) mq.timeout = false ∨
      ∃ e d, _ocr_operation engineQ pq = OpBehavior.raises e d ∧
        d ≤ mq.timeout)
    (hf : finishesWithin (_fast_ocr_operation engineF pf) mf.timeout = false ∨
      ∃ e d, _fast_ocr_operation engineF pf = OpBehavior.raises e d ∧
        d ≤ mf.timeout) :
    extract_text openImage engineQ mq scanned input = none ∧
    extract_screen_text openImage engineF mf scanned input = none := by
  constructor
  · rcases hq with h | ⟨e, d, he, hd⟩
    · exact extract_text_none_of_error openImage engineQ mq scanned input pq
        (timeoutError mq.timeout) hpq (run_snd_of_not_finish mq _ pq scanned h)
    · exact extract_text_none_of_error openImage engineQ mq scanned input pq
        e hpq (run_snd_of_raises mq _ pq scanned e d he hd)
  · rcases hf with h | ⟨e, d, he, hd⟩
    · exact extract_screen_text_none_of_error openImage engineF mf scanned
        input pf (timeoutError mf.timeout) hpf
        (run_snd_of_not_finish mf _ pf scanned h)
    · exact extract_screen_text_none_of_error openImage engineF mf scanned
        input pf e hpf (run_snd_of_raises mf _ pf scanned e d he hd)

/-- Witness for C4 at a concrete input: the accurate profile times out
(engine hangs, timeout 15) and the fast profile hits an engine error
(raise after 1 second, timeout 8); both extractors return `none`. -/
theorem extract_absent_on_failure_witness :
    _preprocess_image openFail (ImageInput.image imgSmall) =
      Except.ok imgSmall ∧
    _preprocess_for_speed openFail (ImageInput.image imgSmall) =
      Except.ok { width := 100, height := 50, mode := "L" } ∧
    (finishesWithin (_ocr_operation engDiverge imgSmall)
        ({ timeout := 15 } : TesseractTimeoutManager String).timeout = false ∨
      ∃ e d, _ocr_operation engDiverge imgSmall = OpBehavior.raises e d ∧
        d ≤ ({ timeout := 15 } : TesseractTimeoutManager String).timeout) ∧
    (finishesWithin
        (_fast_ocr_operation engRaise { width := 100, height := 50, mode := "L" })
        ({ timeout := 8 } : TesseractTimeoutManager String).timeout = false ∨
      ∃ e d, _fast_ocr_operation engRaise
          { width := 100, height := 50, mode := "L" } =
            OpBehavior.raises e d ∧
        d ≤ ({ timeout := 8 } : TesseractTimeoutManager String).timeout) ∧
    (extract_text openFail engDiverge { timeout := 15 } []
        (ImageInput.image imgSmall) = none ∧
      extract_screen_text openFail engRaise { timeout := 8 } []
        (ImageInput.image imgSmall) = none) :=
  ⟨rfl, rfl, Or.inl rfl,
    Or.inr ⟨{ kind := "TesseractError", msg := "bad image" }, 1, rfl,
      by norm_num⟩,
    extract_absent_on_failure openFail engDiverge engRaise
      { timeout := 15 } { timeout := 8 } [] (ImageInput.image imgSmall)
      imgSmall { width := 100, height := 50, mode := "L" } rfl rfl
      (Or.inl rfl)
      (Or.inr ⟨{ kind := "TesseractError", msg := "bad image" }, 1, rfl,
        by norm_num⟩)⟩

/-- C6 counterexample: the engine succeeds within the bound with the
whitespace-only output `" "` — not strictly empty — yet `extract_text`
normalizes it to the absent result `none`, the very value used for
failure. This refutes the claim that empty text is normalized to
absence only when the engine output was strictly empty and is not
conflated with failure. -/
theorem extract_text_whitespace_conflated :
    (" " : String) ≠ "" ∧ pyStrip " " = "" ∧
    extract_text openOk (engText " ") { timeout := 15 } []
      (ImageInput.image imgSmall) = none := by
  refine ⟨by decide, by decide, ?_⟩
  rw [extract_text_of_engine_returns openOk (engText " ") { timeout := 15 }
    [] (ImageInput.image imgSmall) imgSmall " " 1 rfl rfl (by norm_num)]
  decide

/-- C6 (amended): on an engine success within the bound with raw
output `s`, `extract_text` returns the stripped string when it is
nonempty; when the stripped output is empty — including whitespace-only
raw output that is not strictly empty — it returns `none`, the same
absent value used for a timeout or an engine error, i.e. empty text is
conflated with failure. -/
theorem extract_text_success_normalization
    (openImage : String → Except Exc PILImage)
    (engine : PILImage → OpBehavior String)
    (m : TesseractTimeoutManager String) (scanned : List Nat)
    (input : ImageInput) (pimg : PILImage) (s : String) (d : ℚ)
    (hp : _preprocess_image openImage input = Except.ok pimg)
    (he : engine pimg = OpBehavior.returns s d) (hd : d ≤ m.timeout) :
    (pyStrip s ≠ "" →
      extract_text openImage engine m scanned input = some (pyStrip s)) ∧
    (pyStrip s = "" →
      extract_text openImage engine m scanned input = none) := by
  have h := extract_text_of_engine_returns openImage engine m scanned input
    pimg s d hp he hd
  constructor
  · intro hne; rw [h, if_neg hne]
  · intro heq; rw [h, if_pos heq]

/-- Witness for C6's amended theorem at a concrete input: raw engine
output `" hi "` strips to the nonempty `"hi"`, which is returned. -/
theorem extract_text_success_normalization_witness :
    _preprocess_image openOk (ImageInput.image imgSmall) =
      Except.ok imgSmall ∧
    engText " hi " imgSmall = OpBehavior.returns " hi " 1 ∧
    (1 : ℚ) ≤ ({ timeout := 15 } : TesseractTimeoutManager String).timeout ∧
    ((pyStrip " hi " ≠ "" →
      extract_text openOk (engText " hi ") { timeout := 15 } []
        (ImageInput.image imgSmall) = some (pyStrip " hi ")) ∧
    (pyStrip " hi " = "" →
      extract_text openOk (engText " hi ") { timeout := 15 } []
        (ImageInput.image imgSmall) = none)) :=
  ⟨rfl, rfl, by norm_num,
    extract_text_success_normalization openOk (engText " hi ")
      { timeout := 15 } [] (ImageInput.image imgSmall) imgSmall " hi " 1
      rfl rfl (by norm_num)⟩

/-- C7: for every input image with positive dimensions, both profile
preprocessing steps satisfy the downscale invariant: an image wider or
taller than the profile's cap (2000 accurate, 1500 fast) is scaled so
that both dimensions are at most the cap, each within one pixel of
exact scaling by the common positive ratio (aspect ratio preserved up
to rounding); an image within the cap keeps its dimensions
unchanged. -/
theorem preprocess_downscale_invariant
    (openImage : String → Except Exc PILImage) (img : PILImage)
    (hw : 0 < img.width) (hh : 0 < img.height) :
    DownscaleContract 2000 img
      (_preprocess_image openImage (ImageInput.image img)) ∧
    DownscaleContract 1500 img
      (_preprocess_for_speed openImage (ImageInput.image img)) := by
  constructor
  · intro out hout
    rw [preprocess_image_eq] at hout
    obtain rfl : resizeIfNeeded 2000
        (if img.mode ≠ "RGB" then { img with mode := "RGB" } else img) =
          out := by
      injection hout
    obtain ⟨hwq, hhq⟩ := modeConvert_dims img "RGB"
    have spec := resizeIfNeeded_spec 2000
      (if img.mode ≠ "RGB" then { img with mode := "RGB" } else img)
      (by rw [hwq]; exact hw) (by rw [hhq]; exact hh) (by norm_num)
    rw [hwq, hhq] at spec
    exact spec
  · intro out hout
    rw [preprocess_for_speed_eq] at hout
    obtain rfl : resizeIfNeeded 1500
        (if img.mode ≠ "L" then { img with mode := "L" } else img) =
          out := by
      injection hout
    obtain ⟨hwq, hhq⟩ := modeConvert_dims img "L"
    have spec := resizeIfNeeded_spec 1500
      (if img.mode ≠ "L" then { img with mode := "L" } else img)
      (by rw [hwq]; exact hw) (by rw [hhq]; exact hh) (by norm_num)
    rw [hwq, hhq] at spec
    exact spec

/-- Witness for C7 at a concrete input: a 3000 x 1000 RGB image
(positive dimensions) satisfies both profiles' downscale contracts. -/
theorem preprocess_downscale_invariant_witness :
    0 < (3000 : Nat) ∧ 0 < (1000 : Nat) ∧
    (DownscaleContract 2000 { width := 3000, height := 1000, mode := "RGB" }
      (_preprocess_image openOk
        (ImageInput.image { width := 3000, height := 1000, mode := "RGB" })) ∧
    DownscaleContract 1500 { width := 3000, height := 1000, mode := "RGB" }
      (_preprocess_for_speed openOk
        (ImageInput.image { width := 3000, height := 1000, mode := "RGB" }))) :=
  ⟨by decide, by decide,
    preprocess_downscale_invariant openOk
      { width := 3000, height := 1000, mode := "RGB" } (by decide) (by decide)⟩

/-! ### Shared lemmas about batch processing -/

/-- The batch result list has exactly one entry per input image. -/
theorem process_images_length (openImage : String → Except Exc PILImage)
    (engineQ engineF : PILImage → OpBehavior String) (tq tf : ℚ)
    (scanned : List Nat) (images : List ImageInput) (fast_mode : Bool) :
    (process_images openImage engineQ engineF tq tf scanned images
      fast_mode).length = images.length := by
  simp [process_images]

/-- The `i`-th batch entry: index `i`, the text the selected profile
extracts from the `i`-th image, a success flag equal to the presence
of that text, and no error key. -/
theorem process_images_get (openImage : String → Except Exc PILImage)
    (engineQ engineF : PILImage → OpBehavior String) (tq tf : ℚ)
    (scanned : List Nat) (images : List ImageInput) (fast_mode : Bool)
    (i : Nat) (hi : i < images.length)
    (hi2 : i < (process_images openImage engineQ engineF tq tf scanned
      images fast_mode).length) :
    (process_images openImage engineQ engineF tq tf scanned images
        fast_mode).get ⟨i, hi2⟩ =
      { index := i
        text := if fast_mode then
            extract_screen_text openImage engineF { timeout := tf } scanned
              (images.get ⟨i, hi⟩)
          else
            extract_text openImage engineQ { timeout := tq } scanned
              (images.get ⟨i, hi⟩)
        success := (if fast_mode then
            extract_screen_text openImage engineF { timeout := tf } scanned
              (images.get ⟨i, hi⟩)
          else
            extract_text openImage engineQ { timeout := tq } scanned
              (images.get ⟨i, hi⟩)).isSome
        error := none } := by
  simp only [process_images, List.get_eq_getElem, List.getElem_map,
    List.getElem_enum]

/-- C5 counterexample: a single-image batch whose OCR hangs. The
guarded call raises the timeout error, the profile extractor flattens
it to `none`, and the recorded entry is
`{index 0, text none, success false, error none}` — marked failed, but
with NO error kind, contradicting the claim that a timeout on image
`i` is recorded together with an error kind. -/
theorem process_images_missing_error_kind :
    (run_with_timeout ({ timeout := 10 } : TesseractTimeoutManager String)
        (_ocr_operation engDiverge) imgSmall []).2 =
      Except.error (timeoutError 10) ∧
    process_images openOk engDiverge engDiverge 10 8 []
        [ImageInput.image imgSmall] false =
      [{ index := 0, text := none, success := false, error := none }] := by
  exact ⟨rfl, by decide⟩

/-- C5 (amended): `process_images` returns exactly one result per
input image, in input order (entry `i` has index `i` and is computed
from image `i` alone, so one item's failure never aborts the rest); a
timeout or engine error on image `i` is recorded as
`success = false` with `text = none`, but — because the profile
extractors swallow every failure and return `none` — WITHOUT an error
kind: the `error` key is absent (`none`) in every normal-path
entry. -/
theorem process_images_batch_spec (openImage : String → Except Exc PILImage)
    (engineQ engineF : PILImage → OpBehavior String) (tq tf : ℚ)
    (scanned : List Nat) (images : List ImageInput) (fast_mode : Bool) :
    (process_images openImage engineQ engineF tq tf scanned images
      fast_mode).length = images.length ∧
    ∀ i (hi : i < images.length)
      (hi2 : i < (process_images openImage engineQ engineF tq tf scanned
        images fast_mode).length),
      (process_images openImage engineQ engineF tq tf scanned images
          fast_mode).get ⟨i, hi2⟩ =
        { index := i
          text := if fast_mode then
              extract_screen_text openImage engineF { timeout := tf }
                scanned (images.get ⟨i, hi⟩)
            else
              extract_text openImage engineQ { timeout := tq } scanned
                (images.get ⟨i, hi⟩)
          success := (if fast_mode then
              extract_screen_text openImage engineF { timeout := tf }
                scanned (images.get ⟨i, hi⟩)
            else
              extract_text openImage engineQ { timeout := tq } scanned
                (images.get ⟨i, hi⟩)).isSome
          error := none } :=
  ⟨process_images_length openImage engineQ engineF tq tf scanned images
      fast_mode,
    fun i hi hi2 => process_images_get openImage engineQ engineF tq tf
      scanned images fast_mode i hi hi2⟩

/-- Witness for C5's amended theorem at a concrete input: a two-image
quick-mode batch where the first image's OCR hangs and the second
succeeds; the theorem gives both entries, and evaluation shows the
failed first entry followed by the successful second one — processing
continued past the failure. -/
theorem process_images_batch_spec_witness :
    ((process_images openOk engMixed engMixed 10 8 []
        [ImageInput.image imgSmall,
          ImageInput.image { width := 200, height := 50, mode := "RGB" }]
        false).length =
      ([ImageInput.image imgSmall,
          ImageInput.image { width := 200, height := 50, mode := "RGB" }] :
        List ImageInput).length ∧
    ∀ i (hi : i < ([ImageInput.image imgSmall,
          ImageInput.image { width := 200, height := 50, mode := "RGB" }] :
        List ImageInput).length)
      (hi2 : i < (process_images openOk engMixed engMixed 10 8 []
        [ImageInput.image imgSmall,
          ImageInput.image { width := 200, height := 50, mode := "RGB" }]
        false).length),
      (process_images openOk engMixed engMixed 10 8 []
          [ImageInput.image imgSmall,
            ImageInput.image { width := 200, height := 50, mode := "RGB" }]
          false).get ⟨i, hi2⟩ =
        { index := i
          text := if false then
              extract_screen_text openOk engMixed { timeout := 8 } []
                (([ImageInput.image imgSmall,
                    ImageInput.image
                      { width := 200, height := 50, mode := "RGB" }] :
                  List ImageInput).get ⟨i, hi⟩)
            else
              extract_text openOk engMixed { timeout := 10 } []
                (([ImageInput.image imgSmall,
                    ImageInput.image
                      { width := 200, height := 50, mode := "RGB" }] :
                  List ImageInput).get ⟨i, hi⟩)
          success := (if false then
              extract_screen_text openOk engMixed { timeout := 8 } []
                (([ImageInput.image imgSmall,
                    ImageInput.image
                      { width := 200, height := 50, mode := "RGB" }] :
                  List ImageInput).get ⟨i, hi⟩)
            else
              extract_text openOk engMixed { timeout := 10 } []
                (([ImageInput.image imgSmall,
                    ImageInput.image
                      { width := 200, height := 50, mode := "RGB" }] :
                  List ImageInput).get ⟨i, hi⟩)).isSome
          error := none }) ∧
    process_images openOk engMixed engMixed 10 8 []
        [ImageInput.image imgSmall,
          ImageInput.image { width := 200, height := 50, mode := "RGB" }]
        false =
      [{ index := 0, text := none, success := false, error := none },
        { index := 1, text := some "ok", success := true, error := none }] :=
  ⟨process_images_batch_spec openOk engMixed engMixed 10 8 []
      [ImageInput.image imgSmall,
        ImageInput.image { width := 200, height := 50, mode := "RGB" }]
      false,
    by decide⟩

/-- C10: in every normal-path batch entry the success flag equals the
presence of extracted text (`text.isSome`); and because the profile
extractors return `none` for empty extracted text, an image whose OCR
output strips to the empty string — the engine having completed
within the bound without error — is recorded as `success = false`. -/
theorem process_images_success_flag
    (openImage : String → Except Exc PILImage)
    (engineQ engineF : PILImage → OpBehavior String) (tq tf : ℚ)
    (scanned : List Nat) (images : List ImageInput) (fast_mode : Bool)
    (i : Nat) (hi : i < images.length)
    (hi2 : i < (process_images openImage engineQ engineF tq tf scanned
      images false).length)
    (pimg : PILImage) (s : String) (d : ℚ)
    (hp : _preprocess_image openImage (images.get ⟨i, hi⟩) = Except.ok pimg)
    (he : engineQ pimg = OpBehavior.returns s d) (hd : d ≤ tq)
    (hs : pyStrip s = "") :
    (∀ j (hj : j < (process_images openImage engineQ engineF tq tf scanned
        images fast_mode).length),
      ((process_images openImage engineQ engineF tq tf scanned images
          fast_mode).get ⟨j, hj⟩).success =
        ((process_images openImage engineQ engineF tq tf scanned images
          fast_mode).get ⟨j, hj⟩).text.isSome) ∧
    ((process_images openImage engineQ engineF tq tf scanned images
        false).get ⟨i, hi2⟩).success = false := by
  constructor
  · intro j hj
    have hj' : j < images.length := by
      rwa [process_images_length] at hj
    rw [process_images_get openImage engineQ engineF tq tf scanned images
      fast_mode j hj' hj]
  · have ht : extract_text openImage engineQ { timeout := tq } scanned
        (images.get ⟨i, hi⟩) = none := by
      have h := extract_text_of_engine_returns openImage engineQ
        { timeout := tq } scanned (images.get ⟨i, hi⟩) pimg s d hp he hd
      rw [h, if_pos hs]
    rw [List.get_eq_getElem] at ht
    rw [process_images_get openImage engineQ engineF tq tf scanned images
      false i hi hi2]
    simp [ht]

/-- Witness for C10 at a concrete input: a single-image quick-mode
batch whose engine returns `"  "` (strips to empty) within the bound;
its entry has `success = false`, and for every entry the flag equals
the presence of text. -/
theorem process_images_success_flag_witness :
    (0 : Nat) < ([ImageInput.image imgSmall] : List ImageInput).length ∧
    (0 : Nat) < (process_images openOk (engText "  ") (engText "  ") 10 8 []
      [ImageInput.image imgSmall] false).length ∧
    _preprocess_image openOk
      (([ImageInput.image imgSmall] : List ImageInput).get ⟨0, by decide⟩) =
        Except.ok imgSmall ∧
    engText "  " imgSmall = OpBehavior.returns "  " 1 ∧
    (1 : ℚ) ≤ 10 ∧ pyStrip "  " = "" ∧
    ((∀ j (hj : j < (process_images openOk (engText "  ") (engText "  ")
        10 8 [] [ImageInput.image imgSmall] false).length),
      ((process_images openOk (engText "  ") (engText "  ") 10 8 []
          [ImageInput.image imgSmall] false).get ⟨j, hj⟩).success =
        ((process_images openOk (engText "  ") (engText "  ") 10 8 []
          [ImageInput.image imgSmall] false).get ⟨j, hj⟩).text.isSome) ∧
    ((process_images openOk (engText "  ") (engText "  ") 10 8 []
        [ImageInput.image imgSmall] false).get ⟨0, by decide⟩).success =
      false) :=
  ⟨by decide, by decide, rfl, rfl, by norm_num, by decide,
    process_images_success_flag openOk (engText "  ") (engText "  ") 10 8
      [] [ImageInput.image imgSmall] false 0 (by decide) (by decide)
      imgSmall "  " 1 rfl rfl (by norm_num) (by decide)⟩

end TesseractFix
